import Mathlib

/-!
Verification of the team-roster and bootstrap logic of the alias-node-js
repository (an Alias-style party game server).

The embedding models the document store as an association list from numeric
identifiers to team / room records; player and user identifiers are `Nat`;
the mongoose unset field state is `Option.none`.  Each service method of
`TeamsService` (src/alias-chat-game/src/teams/teams.service.ts) and of the
bootstrap `InitializationService` is translated into a pure function from a
store to a store paired with a result; a thrown `NotFoundException` or
`BadRequestException` becomes `Except.error` with the corresponding
`TeamError` constructor.
-/

/-- A team document: owning room id, display name, ordered player-id list,
current describer and current team leader (unset = `none`). -/
structure Team where
  roomId : Nat
  name : String
  players : List Nat
  describer : Option Nat
  teamLeader : Option Nat
deriving Repr, DecidableEq

/-- A room document: display name, attached team ids and turn duration in
seconds. -/
structure Room where
  name : String
  teams : List Nat
  turnTime : Nat
deriving Repr, DecidableEq

/-- The document store: rooms and teams keyed by identifier, plus the next
fresh identifier handed out on insertion. -/
structure Store where
  rooms : List (Nat × Room)
  teams : List (Nat × Team)
  nextId : Nat
deriving Repr, DecidableEq

/-- The store with no documents at all. -/
def emptyStore : Store := ⟨[], [], 0⟩

/-- Domain errors raised by the team service: `NotFoundException` for a
missing team, `BadRequestException` for a full team or duplicate member. -/
inductive TeamError where
  | teamNotFound
  | teamFull
  | duplicateMember
deriving Repr, DecidableEq

/-- The confirmation object returned by `addPlayerToTeam`. -/
structure AddResult where
  message : String
  roomId : Nat
  teamId : Nat
deriving Repr, DecidableEq

deriving instance DecidableEq for Except

/-- JavaScript Array.prototype.indexOf: first index of `a` in `xs`, or -1
when `a` does not occur. -/
def jsIndexOf (xs : List Nat) (a : Nat) : Int :=
  if a ∈ xs then (List.indexOf a xs : Int) else -1

/-- Look a document up by its identifier in an association list (the
find-by-id primitive of the store). -/
def lookupTeam : List (Nat × Team) → Nat → Option Team
  | [], _ => none
  | p :: tl, k => if p.1 = k then some p.2 else lookupTeam tl k

/-- Replace the team stored under `teamId` (a mongoose update by id);
other records are untouched. -/
def Store.updTeam (s : Store) (teamId : Nat) (f : Team → Team) : Store :=
  { s with teams := s.teams.map (fun p => if p.1 = teamId then (p.1, f p.2) else p) }

namespace TeamsService

/-- `findTeamById`: the query findById(teamId) — the document or `none`;
note that, despite its doc comment, the method does not throw when the team
is missing. -/
def findTeamById (s : Store) (teamId : Nat) : Option Team :=
  lookupTeam s.teams teamId

/-- The query findOne with filter id = teamId and roomId = roomId: the team
stored under `teamId` provided it belongs to `roomId`. -/
def findOneQuery (s : Store) (roomId teamId : Nat) : Option Team :=
  match lookupTeam s.teams teamId with
  | some t => if t.roomId = roomId then some t else none
  | none => none

/-- `findOne(roomId, teamId)`: throws `NotFoundException` when the query
finds nothing. -/
def findOne (s : Store) (roomId teamId : Nat) : Except TeamError Team :=
  match findOneQuery s roomId teamId with
  | some t => Except.ok t
  | none => Except.error TeamError.teamNotFound

/-- `findAll(roomId)`: every team whose `roomId` matches; an unknown room
yields the empty list, not an error. -/
def findAll (s : Store) (roomId : Nat) : List Team :=
  (s.teams.filter (fun p => p.2.roomId = roomId)).map Prod.snd

/-- `create(roomId, dto)`: inserts a new team document; describer and team
leader start unset (schema defaults). Returns the id of the new document. -/
def create (s : Store) (roomId : Nat) (name : String) (players : List Nat) :
    Store × Nat :=
  ({ s with teams := s.teams ++ [(s.nextId, ⟨roomId, name, players, none, none⟩)],
            nextId := s.nextId + 1 }, s.nextId)

/-- `addPlayerToTeam(userId, teamId)`: looks the team up by id; errors when
missing, full (3 players) or already containing the user; otherwise appends
the user and persists the new player list.  The returned store is the first
component; error paths leave it unchanged. -/
def addPlayerToTeam (s : Store) (userId teamId : Nat) :
    Store × Except TeamError AddResult :=
  match findTeamById s teamId with
  | none => (s, Except.error TeamError.teamNotFound)
  | some team =>
    if team.players.length ≥ 3 then
      (s, Except.error TeamError.teamFull)
    else if userId ∈ team.players then
      (s, Except.error TeamError.duplicateMember)
    else
      let newPlayers := team.players ++ [userId]
      (s.updTeam teamId (fun t => { t with players := newPlayers }),
       Except.ok ⟨"Player added to the team successfully.", team.roomId, teamId⟩)

/-- `removePlayer(roomId, teamId, userId)`: findOneAndUpdate on the team in
the room with a pull update on the player array — the pull operator removes
every occurrence of `userId` from the player list; errors when the team is
not in the room. -/
def removePlayer (s : Store) (roomId teamId userId : Nat) :
    Store × Except TeamError Team :=
  match findOneQuery s roomId teamId with
  | none => (s, Except.error TeamError.teamNotFound)
  | some t =>
    let t2 := { t with players := t.players.filter (fun p => p ≠ userId) }
    (s.updTeam teamId (fun _ => t2), Except.ok t2)

/-- `setDescriber`: findOneAndUpdate setting the describer field. -/
def setDescriber (s : Store) (roomId teamId : Nat) (userId : Option Nat) :
    Store × Except TeamError Team :=
  match findOneQuery s roomId teamId with
  | none => (s, Except.error TeamError.teamNotFound)
  | some t =>
    let t2 := { t with describer := userId }
    (s.updTeam teamId (fun _ => t2), Except.ok t2)

/-- `setTeamLeader`: findOneAndUpdate setting the teamLeader field. -/
def setTeamLeader (s : Store) (roomId teamId : Nat) (userId : Option Nat) :
    Store × Except TeamError Team :=
  match findOneQuery s roomId teamId with
  | none => (s, Except.error TeamError.teamNotFound)
  | some t =>
    let t2 := { t with teamLeader := userId }
    (s.updTeam teamId (fun _ => t2), Except.ok t2)

/-- The per-team effect of one `defineDescriberAndLeader` call (lines
155-166 of teams.service.ts followed by the two field updates): index of the
current describer (or -1 when unset or absent), advance by one modulo team
size, the leader one further. -/
def rotateTeam (t : Team) : Team :=
  let players := t.players
  let currentDescriberIndex : Int :=
    match t.describer with
    | some d => jsIndexOf players d
    | none => -1
  let nextDescriberIndex : Nat :=
    ((currentDescriberIndex + 1) % (players.length : Int)).toNat
  let nextLeaderIndex : Nat := (nextDescriberIndex + 1) % players.length
  { t with describer := players.get? nextDescriberIndex,
           teamLeader := players.get? nextLeaderIndex }

/-- The describer index chosen by one rotation call. -/
def nextDescriberIndex (t : Team) : Nat :=
  (((match t.describer with
    | some d => jsIndexOf t.players d
    | none => -1) + 1) % (t.players.length : Int)).toNat

/-- `defineDescriberAndLeader(roomId, teamId)`: reads the team, computes the
next describer and leader, then persists each through `setDescriber` and
`setTeamLeader` as two discrete updates. -/
def defineDescriberAndLeader (s : Store) (roomId teamId : Nat) :
    Store × Except TeamError Team :=
  match findOneQuery s roomId teamId with
  | none => (s, Except.error TeamError.teamNotFound)
  | some team =>
    let players := team.players
    let currentDescriberIndex : Int :=
      match team.describer with
      | some d => jsIndexOf players d
      | none => -1
    let nextDescriberIndex : Nat :=
      ((currentDescriberIndex + 1) % (players.length : Int)).toNat
    let nextDescriber := players.get? nextDescriberIndex
    let nextLeaderIndex : Nat := (nextDescriberIndex + 1) % players.length
    let nextLeader := players.get? nextLeaderIndex
    match setDescriber s roomId teamId nextDescriber with
    | (s1, Except.error e) => (s1, Except.error e)
    | (s1, Except.ok _) => setTeamLeader s1 roomId teamId nextLeader

/-- Iterate the store-level rotation `k` times (the store returned by each
call feeds the next). -/
def rotateN (s : Store) (roomId teamId : Nat) : Nat → Store
  | 0 => s
  | Nat.succ k => (defineDescriberAndLeader (rotateN s roomId teamId k) roomId teamId).1

end TeamsService

namespace RoomsService

/-- Modelled from the spec: `RoomsService.deleteAllRooms` (rooms.service.ts
is not part of the excerpt) — unconditionally removes every room. -/
def deleteAllRooms (s : Store) : Store :=
  { s with rooms := [] }

/-- Modelled from the spec: `RoomsService.findAll` — returns all rooms. -/
def findAll (s : Store) : List Room :=
  s.rooms.map Prod.snd

/-- Modelled from the spec: `RoomsService.create` — inserts a room with the
given name, turn duration, and empty/seed team-id list; returns the id of
the new document. -/
def create (s : Store) (name : String) (teams : List Nat) (turnTime : Nat) :
    Store × Nat :=
  ({ s with rooms := s.rooms ++ [(s.nextId, ⟨name, teams, turnTime⟩)],
            nextId := s.nextId + 1 }, s.nextId)

/-- Modelled from the spec: `RoomsService.updateTeam` — replaces the team-id
list of the room. -/
def updateTeam (s : Store) (roomId : Nat) (teamIds : List Nat) : Store :=
  let f := fun (p : Nat × Room) =>
    if p.1 = roomId then (p.1, { p.2 with teams := teamIds }) else p
  { s with rooms := s.rooms.map f }

end RoomsService

namespace InitializationService

/-- `addTeamsToRoom(roomId)`: creates Team1, Team2, Team3 with empty player
lists and attaches their ids to the room. -/
def addTeamsToRoom (s : Store) (roomId : Nat) : Store :=
  let r1 := TeamsService.create s roomId "Team1" []
  let r2 := TeamsService.create r1.1 roomId "Team2" []
  let r3 := TeamsService.create r2.1 roomId "Team3" []
  RoomsService.updateTeam r3.1 roomId [r1.2, r2.2, r3.2]

/-- One iteration of the `createDefaultRooms` loop: re-check existence by
name against the directory, then create the room and its teams. -/
def bootRoomStep (s : Store) (name : String) (turnTime : Nat) : Store :=
  let existingRoom := RoomsService.findAll s
  let roomExist := existingRoom.any (fun r => r.name = name)
  if roomExist then s
  else
    let created := RoomsService.create s name [] turnTime
    addTeamsToRoom created.1 created.2

/-- `createDefaultRooms`: delete every room, then process the fixed list
Room1 / Room2 (turn time 60 each). -/
def createDefaultRooms (s : Store) : Store :=
  let s0 := RoomsService.deleteAllRooms s
  bootRoomStep (bootRoomStep s0 "Room1" 60) "Room2" 60

/-- `onModuleInit`: the bootstrap entry point. -/
def onModuleInit (s : Store) : Store :=
  createDefaultRooms s

/-- Modelled from the spec: the bootstrap variant that unconditionally
creates every default room, with the redundant existence check removed. -/
def createDefaultRoomsUncond (s : Store) : Store :=
  let s0 := RoomsService.deleteAllRooms s
  let step := fun (st : Store) (name : String) (turnTime : Nat) =>
    let created := RoomsService.create st name [] turnTime
    addTeamsToRoom created.1 created.2
  step (step s0 "Room1" 60) "Room2" 60

end InitializationService

/-- Store with one team of players 10, 20, 30 and unset roles (C1 witness). -/
def w1Store : Store := ⟨[], [(0, ⟨0, "TeamW", [10, 20, 30], none, none⟩)], 1⟩

/-- Store with a team whose player list repeats player 1 (C1 counterexample). -/
def c1Store : Store := ⟨[], [(0, ⟨0, "TeamX", [1, 2, 1], none, none⟩)], 1⟩

/-- Store with a full team of players 1, 2, 3 (C3 witness). -/
def w3Store : Store := ⟨[], [(0, ⟨0, "TeamW", [1, 2, 3], none, none⟩)], 1⟩

/-- Store with a full team containing player 1 (C4 counterexample). -/
def c4Store : Store := ⟨[], [(0, ⟨0, "TeamX", [1, 2, 3], none, none⟩)], 1⟩

/-- Store with a two-player team containing player 1 (C4 witness). -/
def w4Store : Store := ⟨[], [(0, ⟨0, "TeamW", [1, 2], none, none⟩)], 1⟩

/-- Store with a single-player team (C5 counterexample, first half). -/
def c5StoreA : Store := ⟨[], [(0, ⟨0, "TeamX", [7], none, none⟩)], 1⟩

/-- Store with a team whose describer is about to be removed (C5
counterexample, second half). -/
def c5StoreB : Store := ⟨[], [(0, ⟨0, "TeamX", [1, 2], some 1, some 2⟩)], 1⟩

/-- Store with a two-player team and unset roles (C5 witness). -/
def w5Store : Store := ⟨[], [(0, ⟨0, "TeamW", [1, 2], none, none⟩)], 1⟩

/-- Store with a team whose player list holds player 1 twice (C6
counterexample). -/
def c6Store : Store := ⟨[], [(0, ⟨0, "TeamX", [1, 1], none, none⟩)], 1⟩

/-- Store with a one-player team (C6 witness). -/
def w6Store : Store := ⟨[], [(0, ⟨0, "TeamW", [5], none, none⟩)], 1⟩

/-- Store with one room and one team under known identifiers (C7). -/
def c7Store : Store := ⟨[(0, ⟨"Room1", [0], 60⟩)], [(0, ⟨0, "Team1", [], none, none⟩)], 1⟩

/-- Store with a team whose describer is not in the player list (C10
witness). -/
def w10Store : Store := ⟨[], [(0, ⟨0, "TeamW", [5, 6], some 9, some 9⟩)], 1⟩

namespace TeamsService

theorem lookupTeam_map_upd (l : List (Nat × Team)) (teamId k : Nat) (f : Team → Team) :
    lookupTeam (l.map (fun p => if p.1 = teamId then (p.1, f p.2) else p)) k
      = (lookupTeam l k).map (fun t => if k = teamId then f t else t) := by
  induction l with
  | nil => rfl
  | cons hd tl ih =>
    obtain ⟨a, b⟩ := hd
    by_cases h1 : a = teamId
    · by_cases h2 : a = k
      · subst h1
        subst h2
        simp [lookupTeam]
      · subst h1
        simp [lookupTeam, h2, ih]
    · by_cases h2 : a = k
      · subst h2
        simp [lookupTeam, h1]
      · simp [lookupTeam, h1, h2, ih]

theorem findOneQuery_eq_some_iff (s : Store) (r tid : Nat) (t : Team) :
    findOneQuery s r tid = some t ↔ lookupTeam s.teams tid = some t ∧ t.roomId = r := by
  unfold findOneQuery
  cases hl : lookupTeam s.teams tid with
  | none => simp
  | some t2 =>
    by_cases h2 : t2.roomId = r
    · simp only [if_pos h2, Option.some.injEq]
      constructor
      · rintro rfl
        exact ⟨rfl, h2⟩
      · exact fun hp => hp.1
    · simp only [if_neg h2]
      constructor
      · intro hf
        simp at hf
      · rintro ⟨ht, hr⟩
        obtain rfl := Option.some.inj ht
        exact False.elim (h2 hr)

theorem findOneQuery_updTeam (s : Store) (r tid : Nat) (f : Team → Team) (t : Team)
    (h : findOneQuery s r tid = some t) (hr : (f t).roomId = t.roomId) :
    findOneQuery (s.updTeam tid f) r tid = some (f t) := by
  rw [findOneQuery_eq_some_iff] at h ⊢
  obtain ⟨hl, hroom⟩ := h
  refine ⟨?_, hr.trans hroom⟩
  show lookupTeam (s.teams.map _) tid = _
  rw [lookupTeam_map_upd, hl]
  simp

theorem updTeam_updTeam (s : Store) (tid : Nat) (f g : Team → Team) :
    (s.updTeam tid f).updTeam tid g = s.updTeam tid (fun t => g (f t)) := by
  unfold Store.updTeam
  simp only [List.map_map]
  have hfun : ((fun p : Nat × Team => if p.1 = tid then (p.1, g p.2) else p) ∘
      (fun p : Nat × Team => if p.1 = tid then (p.1, f p.2) else p))
      = (fun p : Nat × Team => if p.1 = tid then (p.1, g (f p.2)) else p) := by
    funext p
    by_cases h : p.1 = tid <;> simp [Function.comp, h]
  rw [hfun]

theorem setDescriber_found (s : Store) (r tid : Nat) (t : Team) (u : Option Nat)
    (h : findOneQuery s r tid = some t) :
    setDescriber s r tid u
      = (s.updTeam tid (fun _ => { t with describer := u }),
         Except.ok { t with describer := u }) := by
  unfold setDescriber
  rw [h]

theorem setTeamLeader_found (s : Store) (r tid : Nat) (t : Team) (u : Option Nat)
    (h : findOneQuery s r tid = some t) :
    setTeamLeader s r tid u
      = (s.updTeam tid (fun _ => { t with teamLeader := u }),
         Except.ok { t with teamLeader := u }) := by
  unfold setTeamLeader
  rw [h]

theorem defineDescriberAndLeader_found (s : Store) (r tid : Nat) (t : Team)
    (h : findOneQuery s r tid = some t) :
    defineDescriberAndLeader s r tid
      = (s.updTeam tid (fun _ => rotateTeam t), Except.ok (rotateTeam t)) := by
  unfold defineDescriberAndLeader
  rw [h]
  simp only [setDescriber_found s r tid t _ h]
  rw [setTeamLeader_found _ r tid _ _ (findOneQuery_updTeam s r tid _ t h rfl)]
  rw [updTeam_updTeam]
  rfl

theorem jsIndexOf_not_mem (xs : List Nat) (a : Nat) (h : a ∉ xs) : jsIndexOf xs a = -1 := by
  simp [jsIndexOf, h]

theorem jsIndexOf_get (xs : List Nat) (hnd : xs.Nodup) (i : Nat) (hi : i < xs.length) :
    jsIndexOf xs (xs.get ⟨i, hi⟩) = i := by
  unfold jsIndexOf
  rw [if_pos (xs.get_mem _ _)]
  norm_cast
  rw [List.get_eq_getElem]
  exact List.indexOf_getElem hnd i hi

theorem rotateTeam_none (t : Team) (hd : t.describer = none) :
    rotateTeam t = { t with describer := t.players.get? 0,
                            teamLeader := t.players.get? (1 % t.players.length) } := by
  simp only [rotateTeam, hd]
  norm_num

theorem rotateTeam_not_mem (t : Team) (d : Nat) (hd : t.describer = some d)
    (hm : d ∉ t.players) :
    rotateTeam t = { t with describer := t.players.get? 0,
                            teamLeader := t.players.get? (1 % t.players.length) } := by
  simp only [rotateTeam, hd, jsIndexOf_not_mem t.players d hm]
  norm_num

theorem rotateTeam_some (t : Team) (hnd : t.players.Nodup) (i : Nat)
    (hi : i < t.players.length) (hd : t.describer = some (t.players.get ⟨i, hi⟩)) :
    rotateTeam t = { t with describer := t.players.get? ((i + 1) % t.players.length),
                            teamLeader := t.players.get? ((i + 2) % t.players.length) } := by
  simp only [rotateTeam, hd, jsIndexOf_get t.players hnd i hi]
  have h2 : (((i : Int) + 1) % (t.players.length : Int)).toNat = (i + 1) % t.players.length := by
    have hcast : ((i : Int) + 1) % (t.players.length : Int)
        = (((i + 1) % t.players.length : Nat) : Int) := by push_cast; ring
    rw [hcast, Int.toNat_natCast]
  rw [h2]
  have h3 : ((i + 1) % t.players.length + 1) % t.players.length
      = (i + 2) % t.players.length := by
    rw [Nat.mod_add_mod]
  rw [h3]

theorem rotateTeam_eq_index (t : Team) :
    rotateTeam t = { t with
      describer := t.players.get? (nextDescriberIndex t),
      teamLeader := t.players.get? ((nextDescriberIndex t + 1) % t.players.length) } := rfl

theorem nextDescriberIndex_lt (t : Team) (hn : 0 < t.players.length) :
    nextDescriberIndex t < t.players.length := by
  unfold nextDescriberIndex
  generalize (match t.describer with
    | some d => jsIndexOf t.players d
    | none => (-1 : Int)) = m
  have hpos : (0 : Int) < (t.players.length : Int) := by exact_mod_cast hn
  have h1 := Int.emod_nonneg (m + 1) (by omega : (t.players.length : Int) ≠ 0)
  have h2 := Int.emod_lt_of_pos (m + 1) hpos
  omega

theorem rotateN_found (s : Store) (r tid : Nat) (t0 : Team)
    (h : findOneQuery s r tid = some t0) (hnd : t0.players.Nodup)
    (hd : t0.describer = none) (hn : 0 < t0.players.length) :
    ∀ k, 1 ≤ k → findOneQuery (rotateN s r tid k) r tid
      = some { t0 with describer := t0.players.get? ((k - 1) % t0.players.length),
                       teamLeader := t0.players.get? (k % t0.players.length) } := by
  intro k
  induction k with
  | zero => omega
  | succ k ih =>
    intro _
    by_cases hk0 : k = 0
    · subst hk0
      show findOneQuery (defineDescriberAndLeader (rotateN s r tid 0) r tid).1 r tid = _
      have h0 : rotateN s r tid 0 = s := rfl
      rw [h0, defineDescriberAndLeader_found s r tid t0 h]
      rw [findOneQuery_updTeam s r tid (fun _ => rotateTeam t0) t0 h rfl]
      rw [rotateTeam_none t0 hd]
      simp
    · have hk1 : 1 ≤ k := Nat.one_le_iff_ne_zero.mpr hk0
      have ihh := ih hk1
      show findOneQuery (defineDescriberAndLeader (rotateN s r tid k) r tid).1 r tid = _
      rw [defineDescriberAndLeader_found _ r tid _ ihh]
      rw [findOneQuery_updTeam _ r tid _ _ ihh rfl]
      have hidx : (k - 1) % t0.players.length < t0.players.length := Nat.mod_lt _ hn
      have hget : ({ t0 with describer := t0.players.get? ((k - 1) % t0.players.length),
                             teamLeader := t0.players.get? (k % t0.players.length) } : Team).describer
          = some (t0.players.get ⟨(k - 1) % t0.players.length, hidx⟩) := by
        show t0.players.get? ((k - 1) % t0.players.length) = _
        rw [List.get?_eq_get hidx]
      rw [rotateTeam_some { t0 with describer := t0.players.get? ((k - 1) % t0.players.length),
                                    teamLeader := t0.players.get? (k % t0.players.length) }
            hnd ((k - 1) % t0.players.length) hidx hget]
      have e1 : ((k - 1) % t0.players.length + 1) % t0.players.length
          = k % t0.players.length := by
        rw [Nat.mod_add_mod]
        congr 1
        omega
      have e2 : ((k - 1) % t0.players.length + 2) % t0.players.length
          = (k + 1) % t0.players.length := by
        rw [Nat.mod_add_mod]
        congr 1
        omega
      rw [e1, e2]
      simp

end TeamsService

/-- C1, counterexample: the claim quantifies over every team with at least
one player, but on the team with player list [1, 2, 1] (player 1 listed
twice, reachable through team creation, which accepts an arbitrary player
list) the indices are not visited in strict cyclic order: after the 4th
rotation the cyclic order demands the describer at index (4-1) mod 3 = 0,
that is player 1, yet the describer is player 2. -/
theorem c1_cyclic_order_counterexample :
    (⟨0, "TeamX", [1, 2, 1], none, none⟩ : Team).describer = none
    ∧ 1 ≤ ([1, 2, 1] : List Nat).length
    ∧ TeamsService.findOneQuery (TeamsService.rotateN c1Store 0 0 4) 0 0
        = some ⟨0, "TeamX", [1, 2, 1], some 2, some 1⟩
    ∧ ([1, 2, 1] : List Nat).get? ((4 - 1) % ([1, 2, 1] : List Nat).length) = some 1
    ∧ (some 2 : Option Nat) ≠ some 1 := by decide

/-- C1 (amended: the player list must be duplicate-free): for every team
with n ≥ 1 pairwise-distinct players, (1) starting from an unset describer,
after k ≥ 1 rotation calls the describer is the player at index (k-1) mod n
and the team leader the player at index k mod n — the describer indices are
visited in strict cyclic order 0, 1, ..., n-1, 0, ... and the leader index
always equals describer index + 1 mod n; (2) a single rotation from a
describer at index i moves the describer to index (i+1) mod n and the
leader to index (i+2) mod n. -/
theorem c1_rotation_cyclic_order :
    (∀ (s : Store) (r tid : Nat) (t0 : Team),
       TeamsService.findOneQuery s r tid = some t0 → t0.players.Nodup →
       t0.describer = none → 0 < t0.players.length →
       ∀ k, 1 ≤ k → TeamsService.findOneQuery (TeamsService.rotateN s r tid k) r tid
         = some { t0 with describer := t0.players.get? ((k - 1) % t0.players.length),
                          teamLeader := t0.players.get? (k % t0.players.length) })
    ∧ (∀ (s : Store) (r tid : Nat) (t : Team) (i : Nat) (hi : i < t.players.length),
       TeamsService.findOneQuery s r tid = some t → t.players.Nodup →
       t.describer = some (t.players.get ⟨i, hi⟩) →
       (TeamsService.defineDescriberAndLeader s r tid).2
         = Except.ok { t with describer := t.players.get? ((i + 1) % t.players.length),
                              teamLeader := t.players.get? ((i + 2) % t.players.length) }) := by
  constructor
  · exact fun s r tid t0 h hnd hd hn => TeamsService.rotateN_found s r tid t0 h hnd hd hn
  · intro s r tid t i hi h hnd hd
    rw [TeamsService.defineDescriberAndLeader_found s r tid t h,
        TeamsService.rotateTeam_some t hnd i hi hd]

/-- C1 witness: on the team with players 10, 20, 30 and unset describer,
three rotations leave describer 30 and leader 10. -/
theorem c1_rotation_cyclic_order_witness :
    TeamsService.findOneQuery (TeamsService.rotateN w1Store 0 0 3) 0 0
      = some ⟨0, "TeamW", [10, 20, 30], some 30, some 10⟩ := by
  have h := c1_rotation_cyclic_order.1 w1Store 0 0 ⟨0, "TeamW", [10, 20, 30], none, none⟩
    rfl (by decide) rfl (by decide) 3 (by decide)
  exact h.trans (by decide)

/-- C2: bootstrap from the empty store yields exactly the two default rooms
Room1 and Room2 with turn duration 60, each holding exactly three attached
teams named Team1, Team2, Team3, every team with an empty player list and
unset describer and team leader. -/
theorem c2_bootstrap_defaults :
    InitializationService.onModuleInit emptyStore
      = ⟨[(0, ⟨"Room1", [1, 2, 3], 60⟩), (4, ⟨"Room2", [5, 6, 7], 60⟩)],
         [(1, ⟨0, "Team1", [], none, none⟩), (2, ⟨0, "Team2", [], none, none⟩),
          (3, ⟨0, "Team3", [], none, none⟩), (5, ⟨4, "Team1", [], none, none⟩),
          (6, ⟨4, "Team2", [], none, none⟩), (7, ⟨4, "Team3", [], none, none⟩)], 8⟩
    ∧ (InitializationService.onModuleInit emptyStore).rooms.length = 2
    ∧ ((InitializationService.onModuleInit emptyStore).rooms.map
        (fun p => (p.2.name, p.2.turnTime))) = [("Room1", 60), ("Room2", 60)]
    ∧ (∀ p ∈ (InitializationService.onModuleInit emptyStore).rooms, p.2.teams.length = 3)
    ∧ (∀ q ∈ (InitializationService.onModuleInit emptyStore).teams,
         q.2.players = [] ∧ q.2.describer = none ∧ q.2.teamLeader = none)
    ∧ ((InitializationService.onModuleInit emptyStore).rooms.map (fun p => p.2.teams))
        = [[1, 2, 3], [5, 6, 7]]
    ∧ ((InitializationService.onModuleInit emptyStore).teams.map Prod.fst)
        = [1, 2, 3, 5, 6, 7]
    ∧ ((InitializationService.onModuleInit emptyStore).teams.map (fun q => q.2.roomId))
        = [0, 0, 0, 4, 4, 4]
    ∧ ((InitializationService.onModuleInit emptyStore).teams.map (fun q => q.2.name))
        = ["Team1", "Team2", "Team3", "Team1", "Team2", "Team3"] := by decide

/-- C3: adding a player to a team that already holds exactly 3 players
always fails with the TeamFull error (the capacity check runs before every
other check, so no other error can be produced). -/
theorem c3_addPlayer_teamFull (s : Store) (u tid : Nat) (t : Team)
    (h : TeamsService.findTeamById s tid = some t) (hlen : t.players.length = 3) :
    (TeamsService.addPlayerToTeam s u tid).2 = Except.error TeamError.teamFull := by
  unfold TeamsService.addPlayerToTeam
  rw [h]
  simp [hlen]

/-- C3 witness: adding player 1 (already a member) to the full team with
players 1, 2, 3 fails with TeamFull. -/
theorem c3_addPlayer_teamFull_witness :
    (TeamsService.addPlayerToTeam w3Store 1 0).2 = Except.error TeamError.teamFull :=
  c3_addPlayer_teamFull w3Store 1 0 ⟨0, "TeamW", [1, 2, 3], none, none⟩ (by decide) (by decide)

/-- C4, counterexample: on a team at capacity 3 that already contains the
player being added, addPlayerToTeam fails with TeamFull, not
DuplicateMember — the capacity check runs first, so the claim fails for
teams at capacity. -/
theorem c4_duplicate_counterexample :
    TeamsService.findTeamById c4Store 0 = some ⟨0, "TeamX", [1, 2, 3], none, none⟩
    ∧ (1 : Nat) ∈ ([1, 2, 3] : List Nat)
    ∧ (TeamsService.addPlayerToTeam c4Store 1 0).2 = Except.error TeamError.teamFull
    ∧ (TeamsService.addPlayerToTeam c4Store 1 0).2 ≠ Except.error TeamError.duplicateMember := by
  decide

/-- C4 (amended: the team must be below capacity): for every team holding
fewer than 3 players, adding a player already present in the player list
fails with the DuplicateMember error. -/
theorem c4_addPlayer_duplicateMember (s : Store) (u tid : Nat) (t : Team)
    (h : TeamsService.findTeamById s tid = some t) (hlen : t.players.length < 3)
    (hm : u ∈ t.players) :
    (TeamsService.addPlayerToTeam s u tid).2 = Except.error TeamError.duplicateMember := by
  unfold TeamsService.addPlayerToTeam
  rw [h]
  have h3 : ¬(t.players.length ≥ 3) := by omega
  simp [h3, hm]

/-- C4 witness: adding player 1 to the two-player team 1, 2 fails with
DuplicateMember. -/
theorem c4_addPlayer_duplicateMember_witness :
    (TeamsService.addPlayerToTeam w4Store 1 0).2 = Except.error TeamError.duplicateMember :=
  c4_addPlayer_duplicateMember w4Store 1 0 ⟨0, "TeamW", [1, 2], none, none⟩
    (by decide) (by decide) (by decide)

/-- C5, counterexample: the claimed invariant fails twice. On a one-player
team a rotation sets describer and team leader to the same player 7 (both
set, not distinct), and removePlayer on the current describer leaves the
describer field set to player 1 although 1 is no longer in the player
list. -/
theorem c5_invariant_counterexample :
    ((TeamsService.defineDescriberAndLeader c5StoreA 0 0).2
        = Except.ok ⟨0, "TeamX", [7], some 7, some 7⟩)
    ∧ ((TeamsService.removePlayer c5StoreB 0 0 1).2
        = Except.ok ⟨0, "TeamX", [2], some 1, some 2⟩
       ∧ (1 : Nat) ∉ ([2] : List Nat)) := by decide

/-- C5 (amended: restricted to the rotation operation on teams with at
least 2 pairwise-distinct players): after defineDescriberAndLeader the
describer and team leader are both set, both drawn from the player list,
and distinct. With a single player they coincide, and removePlayer can
leave a set describer outside the list, so the unrestricted claim is
false. -/
theorem c5_rotation_roles (s : Store) (r tid : Nat) (t : Team)
    (h : TeamsService.findOneQuery s r tid = some t) (hnd : t.players.Nodup)
    (hn : 2 ≤ t.players.length) :
    ∃ d l, (TeamsService.defineDescriberAndLeader s r tid).2
        = Except.ok { t with describer := some d, teamLeader := some l }
      ∧ d ∈ t.players ∧ l ∈ t.players ∧ d ≠ l := by
  have hn1 : 0 < t.players.length := by omega
  have hj := TeamsService.nextDescriberIndex_lt t hn1
  have hj2 : (TeamsService.nextDescriberIndex t + 1) % t.players.length < t.players.length :=
    Nat.mod_lt _ hn1
  refine ⟨t.players.get ⟨TeamsService.nextDescriberIndex t, hj⟩,
          t.players.get ⟨(TeamsService.nextDescriberIndex t + 1) % t.players.length, hj2⟩,
          ?_, t.players.get_mem _ _, t.players.get_mem _ _, ?_⟩
  · rw [TeamsService.defineDescriberAndLeader_found s r tid t h]
    show Except.ok (TeamsService.rotateTeam t) = _
    rw [TeamsService.rotateTeam_eq_index t, List.get?_eq_get hj, List.get?_eq_get hj2]
  · intro heq
    have hfin := (hnd.get_inj_iff).mp heq
    have hval : TeamsService.nextDescriberIndex t
        = (TeamsService.nextDescriberIndex t + 1) % t.players.length :=
      congrArg Fin.val hfin
    by_cases hlt : TeamsService.nextDescriberIndex t + 1 < t.players.length
    · rw [Nat.mod_eq_of_lt hlt] at hval
      omega
    · have hEq : TeamsService.nextDescriberIndex t + 1 = t.players.length := by omega
      rw [hEq, Nat.mod_self] at hval
      omega

/-- C5 witness: rotating the two-player team 1, 2 yields a set, member,
distinct describer and leader. -/
theorem c5_rotation_roles_witness :
    ∃ d l, (TeamsService.defineDescriberAndLeader w5Store 0 0).2
        = Except.ok { (⟨0, "TeamW", [1, 2], none, none⟩ : Team) with
                        describer := some d, teamLeader := some l }
      ∧ d ∈ ([1, 2] : List Nat) ∧ l ∈ ([1, 2] : List Nat) ∧ d ≠ l :=
  c5_rotation_roles w5Store 0 0 ⟨0, "TeamW", [1, 2], none, none⟩
    (by decide) (by decide) (by decide)

/-- C6, counterexample: the claim says removing a present player shrinks the
list by exactly one element, but the pull update removes every occurrence:
on the team with player list [1, 1] removing player 1 empties the list,
shrinking it by two. -/
theorem c6_removePlayer_counterexample :
    TeamsService.findOneQuery c6Store 0 0 = some ⟨0, "TeamX", [1, 1], none, none⟩
    ∧ (1 : Nat) ∈ ([1, 1] : List Nat)
    ∧ (TeamsService.removePlayer c6Store 0 0 1).2 = Except.ok ⟨0, "TeamX", [], none, none⟩
    ∧ ¬(([] : List Nat).length + 1 = ([1, 1] : List Nat).length) := by decide

/-- C6 (amended: shrink-by-one requires the player list to be
duplicate-free; in general the operation removes every occurrence): for a
missing team removePlayer fails with TeamNotFound and leaves the store
unchanged; for a team not containing the player the returned team is
unchanged and no error is raised; for a duplicate-free list containing the
player the result drops exactly that player, shrinking the list by one and
preserving the relative order (sublist) of the remaining players and all
other fields. -/
theorem c6_removePlayer_spec (s : Store) (r tid u : Nat) :
    (TeamsService.findOneQuery s r tid = none →
      TeamsService.removePlayer s r tid u = (s, Except.error TeamError.teamNotFound))
    ∧ (∀ t, TeamsService.findOneQuery s r tid = some t → u ∉ t.players →
        (TeamsService.removePlayer s r tid u).2 = Except.ok t)
    ∧ (∀ t, TeamsService.findOneQuery s r tid = some t → u ∈ t.players → t.players.Nodup →
        ∃ t2, (TeamsService.removePlayer s r tid u).2 = Except.ok t2
          ∧ t2.players.length + 1 = t.players.length
          ∧ t2.players.Sublist t.players
          ∧ u ∉ t2.players
          ∧ t2.roomId = t.roomId ∧ t2.name = t.name
          ∧ t2.describer = t.describer ∧ t2.teamLeader = t.teamLeader) := by
  refine ⟨?_, ?_, ?_⟩
  · intro h
    unfold TeamsService.removePlayer
    rw [h]
  · intro t h hm
    unfold TeamsService.removePlayer
    rw [h]
    have hfe : t.players.filter (fun p => p ≠ u) = t.players := by
      rw [List.filter_eq_self]
      intro b hb
      simp only [ne_eq, decide_not, Bool.not_eq_true']
      rw [decide_eq_false_iff_not]
      exact fun hbu => hm (hbu ▸ hb)
    show Except.ok { t with players := t.players.filter (fun p => p ≠ u) } = _
    rw [hfe]
  · intro t h hm hnd
    unfold TeamsService.removePlayer
    rw [h]
    refine ⟨{ t with players := t.players.filter (fun p => p ≠ u) },
      rfl, ?_, ?_, ?_, rfl, rfl, rfl, rfl⟩
    · show (t.players.filter (fun p => p ≠ u)).length + 1 = t.players.length
      have h1 : t.players.filter (fun p => p ≠ u) = t.players.erase u := by
        rw [hnd.erase_eq_filter u]
        apply List.filter_congr
        intro x hx
        by_cases hxa : x = u <;> simp [hxa]
      rw [h1, List.length_erase_of_mem hm]
      have := List.length_pos.mpr (List.ne_nil_of_mem hm)
      omega
    · exact List.filter_sublist t.players
    · show u ∉ t.players.filter (fun p => p ≠ u)
      simp

/-- C6 witness: removing absent player 9 from the one-player team 5 returns
the team unchanged without error. -/
theorem c6_removePlayer_spec_witness :
    (TeamsService.removePlayer w6Store 0 0 9).2
      = Except.ok ⟨0, "TeamW", [5], none, none⟩ :=
  (c6_removePlayer_spec w6Store 0 0 9).2.1 ⟨0, "TeamW", [5], none, none⟩
    (by decide) (by decide)

/-- C7: evidence against the claim — for an identifier not in the store,
findTeamById returns none (despite its doc comment promising a
NotFoundException) and findAll returns the empty list; only findOne raises
the not-found error. -/
theorem c7_lookup_no_error :
    TeamsService.findTeamById c7Store 7 = none
    ∧ TeamsService.findAll c7Store 7 = []
    ∧ TeamsService.findOne c7Store 7 0 = Except.error TeamError.teamNotFound := by decide

/-- C8: for every prior store, bootstrap with the per-room existence check
is equal to bootstrap that creates every default room unconditionally (the
check never finds a match because step 1 deleted all rooms and the default
names are distinct), and both default rooms are always created. -/
theorem c8_bootstrap_equiv (s : Store) :
    InitializationService.createDefaultRooms s = InitializationService.createDefaultRoomsUncond s
    ∧ ((InitializationService.createDefaultRooms s).rooms.map (fun p => p.2.name))
        = ["Room1", "Room2"] := by
  obtain ⟨rooms, teams, nid⟩ := s
  constructor
  · simp [InitializationService.createDefaultRooms, InitializationService.createDefaultRoomsUncond,
      InitializationService.bootRoomStep, InitializationService.addTeamsToRoom,
      RoomsService.deleteAllRooms, RoomsService.findAll,
      RoomsService.create, RoomsService.updateTeam, TeamsService.create]
  · simp [InitializationService.createDefaultRooms,
      InitializationService.bootRoomStep, InitializationService.addTeamsToRoom,
      RoomsService.deleteAllRooms, RoomsService.findAll,
      RoomsService.create, RoomsService.updateTeam, TeamsService.create]
    split <;> rfl

/-- C9: whenever addPlayerToTeam returns an error (TeamNotFound, TeamFull or
DuplicateMember), the store it returns is exactly the input store — no
update is persisted on any error path. -/
theorem c9_addPlayer_atomic_on_error (s : Store) (u tid : Nat) (e : TeamError)
    (h : (TeamsService.addPlayerToTeam s u tid).2 = Except.error e) :
    (TeamsService.addPlayerToTeam s u tid).1 = s := by
  unfold TeamsService.addPlayerToTeam at *
  cases hf : TeamsService.findTeamById s tid with
  | none => rfl
  | some t =>
    rw [hf] at h
    by_cases h3 : t.players.length ≥ 3
    · simp [h3]
    · by_cases hm : u ∈ t.players
      · simp [h3, hm]
      · simp [h3, hm] at h

/-- C9 witness: adding to a missing team errors and leaves the empty store
unchanged. -/
theorem c9_addPlayer_atomic_on_error_witness :
    (TeamsService.addPlayerToTeam emptyStore 0 0).1 = emptyStore :=
  c9_addPlayer_atomic_on_error emptyStore 0 0 TeamError.teamNotFound (by decide)

/-- C10: when the describer is set but no longer occurs in the player list,
the index lookup yields -1 and the rotation restarts the cycle: the new
describer is the player at index 0 and the new team leader the player at
index 1 mod n. -/
theorem c10_rotation_stale_describer (s : Store) (r tid : Nat) (t : Team) (d : Nat)
    (h : TeamsService.findOneQuery s r tid = some t) (hd : t.describer = some d)
    (hm : d ∉ t.players) :
    (TeamsService.defineDescriberAndLeader s r tid).2
      = Except.ok { t with describer := t.players.get? 0,
                           teamLeader := t.players.get? (1 % t.players.length) } := by
  rw [TeamsService.defineDescriberAndLeader_found s r tid t h,
      TeamsService.rotateTeam_not_mem t d hd hm]

/-- C10 witness: on the team with players 5, 6 and stale describer 9, a
rotation selects describer 5 and leader 6. -/
theorem c10_rotation_stale_describer_witness :
    (TeamsService.defineDescriberAndLeader w10Store 0 0).2
      = Except.ok ⟨0, "TeamW", [5, 6], some 5, some 6⟩ := by
  have h := c10_rotation_stale_describer w10Store 0 0 ⟨0, "TeamW", [5, 6], some 9, some 9⟩ 9
    (by decide) (by decide) (by decide)
  exact h.trans (by decide)
